import Mathlib

/-!
Verification of the crawl-orchestration core of the RAG Spider crawler.

The JavaScript sources are shallowly embedded: error classification,
the retry policy and error handler (`src/utils/errorHandler.js`), the
URL frontier filter, crawling statistics and proxy rotation
(`webCrawler` module).  Machine numbers are modelled as `Nat`/`Int`/`ℚ`,
thrown JS exceptions as `Except`, and JS `Map`s as functions to `Option`.
External library behaviour (the `minimatch` glob matcher and the WHATWG
`URL` parser) is either kept abstract (a parameter of the definitions)
or modelled explicitly in clearly marked definitions.
-/

namespace RagSpider

/-- Error categories (`ErrorCategory` in `src/utils/errorHandler.js`). -/
inductive ErrorCategory
  | network | parsing | extraction | processing | validation
  | timeout | rate_limit | memory | unknown
deriving DecidableEq, Repr

/-- Error severity levels (`ErrorSeverity` in `src/utils/errorHandler.js`). -/
inductive ErrorSeverity
  | low | medium | high | critical
deriving DecidableEq, Repr

/-- The `CrawlerError` class: message, category, severity, and the
`retryable` field that its constructor derives from the category.
The `context`/`timestamp`/`stack` fields play no role in any claim and
carry no behaviour, so they are omitted from the record. -/
structure CrawlerError where
  message : String
  category : ErrorCategory
  severity : ErrorSeverity
  retryable : Bool
deriving DecidableEq, Repr

/-- The list of retryable categories hard-coded in `CrawlerError.isRetryable`. -/
def retryableCategories : List ErrorCategory :=
  [ErrorCategory.network, ErrorCategory.timeout, ErrorCategory.rate_limit]

/-- Method `isRetryable()`: membership of the error's category in
`retryableCategories`. -/
def CrawlerError.isRetryable (e : CrawlerError) : Bool :=
  retryableCategories.contains e.category

/-- The `CrawlerError` constructor: stores message, category, severity and
sets `this.retryable = this.isRetryable()`. -/
def CrawlerError.make (message : String) (category : ErrorCategory)
    (severity : ErrorSeverity) : CrawlerError :=
  let e : CrawlerError :=
    { message := message, category := category, severity := severity, retryable := false }
  { e with retryable := e.isRetryable }

/-- A thrown JS error: either a `CrawlerError` instance or a plain `Error`
(anything that is not `instanceof CrawlerError`). -/
inductive JSError
  | crawler (e : CrawlerError)
  | plain (message : String)
deriving DecidableEq, Repr

/-- The `message` property of a thrown error. -/
def JSError.message : JSError → String
  | .crawler e => e.message
  | .plain m => m

/-- The retry configuration of `RetryPolicy` (`maxRetries`, `baseDelay`).
Defaults in the source are `maxRetries: 3`, `baseDelay: 1000`. -/
structure RetryConfig where
  maxRetries : Nat
  baseDelay : Nat
deriving Repr

/-- The `attempts` Map of `RetryPolicy`, keyed by operationId; an absent
key is `none`. -/
abbrev AttemptsMap : Type := String → Option Nat

/-- A fresh, empty attempts map (`new Map()`). -/
def AttemptsMap.empty : AttemptsMap := fun _ => none

/-- `map.set(k, v)`. -/
def AttemptsMap.set (m : AttemptsMap) (k : String) (v : Nat) : AttemptsMap :=
  fun q => if q = k then some v else m q

/-- `map.delete(k)`. -/
def AttemptsMap.delete (m : AttemptsMap) (k : String) : AttemptsMap :=
  fun q => if q = k then none else m q

/-- `RetryPolicy.calculateDelay(attempt)`: linear backoff
`baseDelay * attempt`. -/
def RetryPolicy.calculateDelay (cfg : RetryConfig) (attempt : Nat) : Nat :=
  cfg.baseDelay * attempt

/-- The `error instanceof CrawlerError && error.isRetryable()` test used by
`shouldRetry`. -/
def jsErrorIsRetryable : JSError → Bool
  | .crawler e => e.isRetryable
  | .plain _ => false

/-- `RetryPolicy.shouldRetry(error, operationId)`: reads the attempts map
(`0` when the key is absent) and retries while
`attempt < maxRetries` and the error is a retryable `CrawlerError`. -/
def RetryPolicy.shouldRetry (cfg : RetryConfig) (attempts : AttemptsMap)
    (error : JSError) (operationId : String) : Bool :=
  let attempt := (attempts operationId).getD 0
  decide (attempt < cfg.maxRetries) && jsErrorIsRetryable error

/-- Observable outcome of one `executeWithRetry` call: the returned value or
re-raised error, the final attempts map, the number of times the operation
was invoked, and the list of delays slept (in order) before each retry. -/
structure RetryOutcome (α : Type) where
  result : Except JSError α
  attempts : AttemptsMap
  attemptCount : Nat
  delays : List Nat

/-- The body of `RetryPolicy.executeWithRetry`'s `while (true)` loop,
entered with the local counter `attempts = localAttempts`.  The operation
is modelled as a function from the 0-based attempt index to its outcome
(a JS operation taking no arguments whose result may differ per attempt).
On failure the local counter is incremented, written to the map, and
`shouldRetry` decides between sleeping `calculateDelay(attempts)` and
re-raising; on success the map entry is deleted. -/
def executeWithRetryGo {α : Type} (cfg : RetryConfig) (op : Nat → Except JSError α)
    (operationId : String) (m : AttemptsMap) (localAttempts : Nat) : RetryOutcome α :=
  match op localAttempts with
  | .ok a => ⟨.ok a, m.delete operationId, localAttempts + 1, []⟩
  | .error e =>
    if h : RetryPolicy.shouldRetry cfg (m.set operationId (localAttempts + 1)) e operationId then
      let rest := executeWithRetryGo cfg op operationId
        (m.set operationId (localAttempts + 1)) (localAttempts + 1)
      ⟨rest.result, rest.attempts, rest.attemptCount,
        RetryPolicy.calculateDelay cfg (localAttempts + 1) :: rest.delays⟩
    else
      ⟨.error e, m.set operationId (localAttempts + 1), localAttempts + 1, []⟩
termination_by cfg.maxRetries - localAttempts
decreasing_by
  simp [RetryPolicy.shouldRetry, AttemptsMap.set] at h
  omega

/-- `RetryPolicy.executeWithRetry(operation, operationId)` starting from
attempts map `m` (the local `attempts` counter starts at 0). -/
def executeWithRetry {α : Type} (cfg : RetryConfig) (op : Nat → Except JSError α)
    (operationId : String) (m : AttemptsMap) : RetryOutcome α :=
  executeWithRetryGo cfg op operationId m 0

/-- The `errorStats` record of `ErrorHandler`; the two Maps are modelled as
total functions with absent keys read as 0 (the source reads
`map.get(k) || 0`). -/
structure ErrorStats where
  totalErrors : Nat
  errorsByCategory : ErrorCategory → Nat
  errorsBySeverity : ErrorSeverity → Nat
  recoveredErrors : Nat
  unrecoverableErrors : Nat

/-- The fresh `errorStats` built by the `ErrorHandler` constructor. -/
def ErrorStats.init : ErrorStats :=
  ⟨0, fun _ => 0, fun _ => 0, 0, 0⟩

/-- `ErrorHandler.updateErrorStats(error)`: always increments `totalErrors`;
for a `CrawlerError` also increments `errorsByCategory` at its category. -/
def updateErrorStats (st : ErrorStats) (error : JSError) : ErrorStats :=
  let st1 := { st with totalErrors := st.totalErrors + 1 }
  match error with
  | .crawler e =>
    { st1 with errorsByCategory := fun c =>
        if c = e.category then st1.errorsByCategory c + 1 else st1.errorsByCategory c }
  | .plain _ => st1

/-- The value returned by `executeWithErrorHandling`: either the operation's
result or the `{recovered, skipped, reason}` sentinel object. -/
inductive HandleResult (α : Type)
  | value (a : α)
  | sentinel (recovered : Bool) (skipped : Bool) (reason : String)

/-- Observable outcome of `executeWithErrorHandling`: returned value and the
updated handler state. -/
structure HandleOutcome (α : Type) where
  result : HandleResult α
  stats : ErrorStats
  attempts : AttemptsMap

/-- `ErrorHandler.executeWithErrorHandling(operation, operationId)`:
delegates to the retry policy; a caught error updates the stats and is
converted to `{recovered: false, skipped: true, reason: error.message}`.
The function is total: no error case appears in its return type. -/
def executeWithErrorHandling {α : Type} (cfg : RetryConfig) (st : ErrorStats)
    (op : Nat → Except JSError α) (operationId : String) (m : AttemptsMap) :
    HandleOutcome α :=
  let o := executeWithRetry cfg op operationId m
  match o.result with
  | .ok a => ⟨.value a, st, o.attempts⟩
  | .error e => ⟨.sentinel false true e.message, updateErrorStats st e, o.attempts⟩

/-- Helper for `strIncludes`: does `sub` begin the list `s`? -/
def beginsWith : List Char → List Char → Bool
  | [], _ => true
  | _ :: _, [] => false
  | a :: as, b :: bs => a == b && beginsWith as bs

/-- Helper for `strIncludes`: does `sub` occur contiguously inside `s`? -/
def occursIn (sub : List Char) : List Char → Bool
  | [] => beginsWith sub []
  | b :: bs => beginsWith sub (b :: bs) || occursIn sub bs

/-- JS `s.includes(sub)` on strings. -/
def strIncludes (s sub : String) : Bool := occursIn sub.data s.data

/-- JS `s.toLowerCase()` on the (ASCII) error messages: char-wise
lower-casing. -/
def jsToLower (s : String) : String := String.mk (s.data.map Char.toLower)

/-- `categorizeError(error)` from `src/utils/errorHandler.js`: substring
tests on the lower-cased message, returning `network`, `timeout`,
`rate_limit` or `unknown`. -/
def categorizeError (message : String) : ErrorCategory :=
  if strIncludes (jsToLower message) "network" ||
      strIncludes (jsToLower message) "econnreset" ||
      strIncludes (jsToLower message) "enotfound" then
    ErrorCategory.network
  else if strIncludes (jsToLower message) "timeout" ||
      strIncludes (jsToLower message) "etimedout" then
    ErrorCategory.timeout
  else if strIncludes (jsToLower message) "rate limit" ||
      strIncludes (jsToLower message) "too many requests" then
    ErrorCategory.rate_limit
  else
    ErrorCategory.unknown

/-- The recovery decisions made by `WebCrawler.handleFailedRequestWithRecovery`
for a terminal error: which category it classifies, whether it rotates the
proxy (`rate_limit` and rotation enabled) and whether it performs memory
cleanup (`memory`). -/
structure RecoveryActions where
  category : ErrorCategory
  rotatesProxy : Bool
  performsMemoryCleanup : Bool
deriving DecidableEq, Repr

/-- The classification and recovery-trigger logic of
`WebCrawler.handleFailedRequestWithRecovery({request, error})`. -/
def handleFailedRequestRecovery (proxyRotationEnabled : Bool)
    (errorMessage : String) : RecoveryActions :=
  let category := categorizeError errorMessage
  { category := category
    rotatesProxy := decide (category = ErrorCategory.rate_limit) && proxyRotationEnabled
    performsMemoryCleanup := decide (category = ErrorCategory.memory) }

/-- The result record of `UrlFilter.shouldCrawl`. -/
structure FilterDecision where
  allowed : Bool
  reason : String
deriving DecidableEq, Repr

/-- The configuration read by the `UrlFilter` constructor; its defaults are
`includeUrlGlobs = ['**']`, `excludeUrlGlobs = []`, `maxCrawlDepth = 3`. -/
structure UrlFilterCfg where
  includeGlobs : List String
  excludeGlobs : List String
  maxDepth : Nat
deriving Repr

/-- The `UrlFilter` constructor defaults. -/
def UrlFilterCfg.default : UrlFilterCfg := ⟨["**"], [], 3⟩

/-- A glob matcher `mm url pattern`, returning the match result or a thrown
exception.  The filter delegates matching to the external `minimatch`
library, so the filter's methods are parametrized over the matcher. -/
abbrev GlobMatcher : Type := String → String → Except String Bool

/-- JS `Array.prototype.some` over a predicate that may throw: stops at the
first `true` result or the first thrown exception. -/
def someExcept {α : Type} (f : α → Except String Bool) : List α → Except String Bool
  | [] => .ok false
  | x :: xs =>
    match f x with
    | .error e => .error e
    | .ok true => .ok true
    | .ok false => someExcept f xs

/-- `UrlFilter.matchesIncludePatterns(url)`: `some` over the include globs,
with any thrown exception caught and converted to `false`. -/
def matchesIncludePatterns (mm : GlobMatcher) (cfg : UrlFilterCfg) (url : String) : Bool :=
  match someExcept (fun p => mm url p) cfg.includeGlobs with
  | .ok b => b
  | .error _ => false

/-- `UrlFilter.matchesExcludePatterns(url)`: `some` over the exclude globs,
with any thrown exception caught and converted to `false`. -/
def matchesExcludePatterns (mm : GlobMatcher) (cfg : UrlFilterCfg) (url : String) : Bool :=
  match someExcept (fun p => mm url p) cfg.excludeGlobs with
  | .ok b => b
  | .error _ => false

/-- `UrlFilter.shouldCrawl(url, currentDepth)`: depth check first, then
exclusion, then inclusion. -/
def shouldCrawl (mm : GlobMatcher) (cfg : UrlFilterCfg) (url : String)
    (currentDepth : Nat) : FilterDecision :=
  if currentDepth ≥ cfg.maxDepth then ⟨false, "depth_exceeded"⟩
  else if matchesExcludePatterns mm cfg url then ⟨false, "excluded_pattern"⟩
  else if !matchesIncludePatterns mm cfg url then ⟨false, "not_included"⟩
  else ⟨true, "allowed"⟩

/-- Modelled from the spec: the external `minimatch` matcher, restricted to
the default include pattern `**`, which the spec calls "match-all"; any
other pattern is outside the model and throws. -/
def minimatchModel : GlobMatcher := fun _ pattern =>
  if pattern = "**" then .ok true else .error "pattern outside model"

/-- Components of a parsed URL as held by a WHATWG `URL` object (restricted
model, see `parseModel`). -/
structure URLParts where
  scheme : String
  host : String
  path : String
  query : Option String
  fragment : Option String
deriving DecidableEq, Repr

/-- Scheme characters admitted by the URL model: lower-case letters only
(on this set the WHATWG parser preserves the scheme verbatim). -/
def isSchemeChar (c : Char) : Bool := c.isLower

/-- Host characters admitted by the URL model: lower-case letters, digits,
dot and hyphen (on this set WHATWG host parsing is the identity). -/
def isHostChar (c : Char) : Bool := c.isLower || c.isDigit || c == '.' || c == '-'

/-- Path and query characters admitted by the URL model: characters that
the WHATWG serializer emits verbatim (no percent-encoding). -/
def isSafeChar (c : Char) : Bool :=
  c.isAlphanum || c == '/' || c == '.' || c == '-' || c == '_' || c == '~' ||
  c == '=' || c == '&'

/-- Splits a character list at each `/`. -/
def segmentsOf : List Char → List (List Char)
  | [] => [[]]
  | c :: rest =>
    if c = '/' then [] :: segmentsOf rest
    else
      match segmentsOf rest with
      | s :: ss => (c :: s) :: ss
      | [] => [[c]]

/-- True when the path contains no `.` or `..` segment (on such paths the
WHATWG dot-segment resolution is the identity). -/
def noDotSegments (path : List Char) : Bool :=
  (segmentsOf path).all fun s => !(s = ['.']) && !(s = ['.', '.'])

/-- Splits `scheme://host path query fragment` without validation:
the scheme before the first `:`, which must be followed by `//`; then the
fragment after the first `#`, the query after the first `?` before the
fragment, and the host up to the first `/` with the path the rest. -/
def splitURL (cs : List Char) :
    Option (List Char × List Char × List Char × Option (List Char) × Option (List Char)) :=
  let schemeChars := cs.takeWhile (· ≠ ':')
  match cs.dropWhile (· ≠ ':') with
  | ':' :: '/' :: '/' :: afterScheme =>
    let beforeFrag := afterScheme.takeWhile (· ≠ '#')
    let fragment : Option (List Char) :=
      match afterScheme.dropWhile (· ≠ '#') with
      | '#' :: f => some f
      | _ => none
    let beforeQuery := beforeFrag.takeWhile (· ≠ '?')
    let query : Option (List Char) :=
      match beforeFrag.dropWhile (· ≠ '?') with
      | '?' :: q => some q
      | _ => none
    let host := beforeQuery.takeWhile (· ≠ '/')
    let path := beforeQuery.dropWhile (· ≠ '/')
    some (schemeChars, host, path, query, fragment)
  | _ => none

/-- Modelled from the spec: the WHATWG `URL` parser used by `new URL(url)`
(an external platform library), on a restricted fragment of URL syntax —
`scheme://host/path?query#fragment` where the scheme is lower-case
alphabetic, the host is a simple lower-case domain (no port, no userinfo,
no IP literal), and path and query contain only characters the WHATWG
serializer emits verbatim, with no `.`/`..` path segments.  On this
fragment the WHATWG component values are exactly the split substrings;
everything outside the fragment is out of the model (`none`). -/
def parseModel (u : String) : Option URLParts :=
  match splitURL u.data with
  | none => none
  | some (sch, host, path, query, fragment) =>
    if sch ≠ [] && sch.all isSchemeChar && host ≠ [] && host.all isHostChar &&
        path.all isSafeChar && noDotSegments path && (query.getD []).all isSafeChar then
      some ⟨String.mk sch, String.mk host, String.mk path,
        query.map String.mk, fragment.map String.mk⟩
    else none

/-- Modelled from the spec: the WHATWG `URL` serializer (`url.toString()`)
on the model's fragment — scheme, `://`, host, the path (an empty path of
a special scheme is serialized as `/`), then `?query` and `#fragment` when
present. -/
def serializeURL (p : URLParts) : String :=
  p.scheme ++ "://" ++ p.host ++
  (if p.path = "" then "/" else p.path) ++
  (match p.query with | some q => "?" ++ q | none => "") ++
  (match p.fragment with | some f => "#" ++ f | none => "")

/-- `UrlFilter.normalizeUrl(url)`: parse, clear the fragment
(`parsed.hash = ''` sets the fragment to null), re-serialize; a parse
failure is caught and the input returned unchanged. -/
def normalizeUrl (u : String) : String :=
  match parseModel u with
  | some p => serializeURL { p with fragment := none }
  | none => u

/-- The counter fields of `CrawlingStats` and its two lists (errors and
warnings hold `{message, url}` pairs; timestamps are not modelled).
`startTime`/`endTime` are wall-clock values outside the model. -/
structure CrawlingStats where
  totalRequests : Nat
  successfulRequests : Nat
  failedRequests : Nat
  filteredUrls : Nat
  depthExceededUrls : Nat
  processedPages : Nat
  extractedChunks : Nat
  totalTokens : Nat
  errors : List (String × String)
  warnings : List (String × String)
deriving DecidableEq, Repr

/-- The `CrawlingStats` constructor: every counter 0, empty lists. -/
def CrawlingStats.init : CrawlingStats :=
  ⟨0, 0, 0, 0, 0, 0, 0, 0, [], []⟩

/-- JS `Math.round`: nearest integer, halves rounding toward `+∞`. -/
def mathRound (q : ℚ) : ℤ := ⌊q + 1 / 2⌋

/-- `CrawlingStats.getSuccessRate()`: `0` when `totalRequests === 0`, else
`Math.round((successfulRequests / totalRequests) * 100)`. -/
def CrawlingStats.getSuccessRate (st : CrawlingStats) : ℤ :=
  if st.totalRequests = 0 then 0
  else mathRound ((st.successfulRequests : ℚ) / (st.totalRequests : ℚ) * 100)

/-- The proxy-related state of a `WebCrawler`: the configured pool
(`options.proxyConfiguration.proxyUrls`, `none` when the configuration or
the field is absent), the rotation index (`none` models JS `NaN`), and the
active browser-layer pool (`crawler.proxyConfiguration.proxyUrls`, `none`
when the crawler or its proxy configuration is absent; elements may be
JS `undefined`, modelled as `none`). -/
structure CrawlerProxyState where
  optionsProxyUrls : Option (List String)
  currentProxyIndex : Option Nat
  crawlerProxyUrls : Option (List (Option String))
deriving DecidableEq, Repr

/-- JS `urls[i]` where `i` may be `NaN` (`none`): `NaN` or out-of-range
indexing yields `undefined`. -/
def jsIndex (l : List String) : Option Nat → Option String
  | none => none
  | some i => l.get? i

/-- `WebCrawler.rotateProxy()`: no-op when no pool is configured; else
`currentProxyIndex = (currentProxyIndex + 1) % proxyUrls.length` (`% 0`
yields `NaN`, and `NaN` propagates), and, when the browser-layer proxy
configuration exists, it is replaced by the one-element pool
`[proxyUrls[currentProxyIndex]]`. -/
def rotateProxy (s : CrawlerProxyState) : CrawlerProxyState :=
  match s.optionsProxyUrls with
  | none => s
  | some urls =>
    let newIndex : Option Nat :=
      match s.currentProxyIndex with
      | none => none
      | some i => if urls.length = 0 then none else some ((i + 1) % urls.length)
    { optionsProxyUrls := s.optionsProxyUrls
      currentProxyIndex := newIndex
      crawlerProxyUrls :=
        match s.crawlerProxyUrls with
        | none => none
        | some _ => some [jsIndex urls newIndex] }

/-- A test operation that always fails with a retryable `network`
`CrawlerError` (the scenario of the spec's retry example). -/
def alwaysNetworkFail : Nat → Except JSError Unit :=
  fun _ => .error (.crawler
    (CrawlerError.make "net down" ErrorCategory.network ErrorSeverity.medium))

/-!
Theorems.  Each claim of the specification corresponds to exactly one
theorem below (plus, where appropriate, a closed counterexample and a
closed witness).
-/

/-- C3: for every matcher, pattern configuration, URL and depth with
`depth >= maxDepth`, `shouldCrawl` denies with reason `depth_exceeded` —
the depth check precedes both pattern checks, so the result does not
depend on the include or exclude patterns (the matcher and both pattern
lists are universally quantified). -/
theorem shouldCrawl_depth_exceeded (mm : GlobMatcher) (cfg : UrlFilterCfg)
    (url : String) (depth : Nat) (h : cfg.maxDepth ≤ depth) :
    shouldCrawl mm cfg url depth = ⟨false, "depth_exceeded"⟩ := by
  simp [shouldCrawl, h]

/-- Witness for C3: a URL matching every inclusion pattern (a match-all
matcher) is still denied at depth 3 with `maxDepth = 3`. -/
theorem shouldCrawl_depth_exceeded_witness :
    UrlFilterCfg.default.maxDepth ≤ 3 ∧
    shouldCrawl (fun _ _ => .ok true) UrlFilterCfg.default "https://example.com/a" 3 =
      ⟨false, "depth_exceeded"⟩ :=
  ⟨by decide, shouldCrawl_depth_exceeded _ _ _ _ (by decide)⟩

/-- Characterization of JS `Array.some` over a matcher that does not throw
on the traversed list: it yields `true` exactly when some element
matches. -/
theorem someExcept_ok_true_iff {α : Type} {f : α → Except String Bool} {l : List α}
    (htot : ∀ x ∈ l, ∃ b, f x = .ok b) :
    someExcept f l = .ok true ↔ ∃ x ∈ l, f x = .ok true := by
  induction l with
  | nil => simp [someExcept]
  | cons a as ih =>
    obtain ⟨b, hb⟩ := htot a (List.mem_cons_self a as)
    have ih1 := ih fun x hx => htot x (List.mem_cons_of_mem a hx)
    cases b with
    | true => simp [someExcept, hb]
    | false => simp [someExcept, hb, ih1]

/-- C4: whenever the depth budget is not exhausted, the matcher does not
throw on the exclude patterns, and the URL matches at least one exclude
glob, `shouldCrawl` denies with `excluded_pattern` — even when the URL
also matches at least one include glob (exclusion wins, being checked
first). -/
theorem shouldCrawl_exclude_wins (mm : GlobMatcher) (cfg : UrlFilterCfg)
    (url : String) (depth : Nat) (hd : depth < cfg.maxDepth)
    (htot : ∀ p ∈ cfg.excludeGlobs, ∃ b, mm url p = .ok b)
    (hex : ∃ p ∈ cfg.excludeGlobs, mm url p = .ok true)
    (hinc : ∃ p ∈ cfg.includeGlobs, mm url p = .ok true) :
    shouldCrawl mm cfg url depth = ⟨false, "excluded_pattern"⟩ := by
  have h1 : someExcept (fun p => mm url p) cfg.excludeGlobs = .ok true :=
    (someExcept_ok_true_iff htot).mpr hex
  have h2 : matchesExcludePatterns mm cfg url = true := by
    simp [matchesExcludePatterns, h1]
  simp [shouldCrawl, h2, Nat.not_le.mpr hd]

/-- Witness for C4: a URL matching both the exclude glob and the include
glob, below the depth limit, is denied with `excluded_pattern`. -/
theorem shouldCrawl_exclude_wins_witness :
    shouldCrawl (fun _ _ => .ok true)
      ⟨["https://x/**"], ["https://x/admin/**"], 3⟩ "https://x/admin/login" 1 =
      ⟨false, "excluded_pattern"⟩ :=
  shouldCrawl_exclude_wins _ _ _ _ (by decide) (fun p _ => ⟨true, rfl⟩)
    ⟨"https://x/admin/**", by simp, rfl⟩ ⟨"https://x/**", by simp, rfl⟩

/-- Helper for C8: `categorizeError` only ever returns one of the four
categories appearing in its `if`/`else` chain. -/
theorem categorizeError_cases (msg : String) :
    categorizeError msg = ErrorCategory.network ∨
    categorizeError msg = ErrorCategory.timeout ∨
    categorizeError msg = ErrorCategory.rate_limit ∨
    categorizeError msg = ErrorCategory.unknown := by
  unfold categorizeError
  split
  · exact Or.inl rfl
  · split
    · exact Or.inr (Or.inl rfl)
    · split
      · exact Or.inr (Or.inr (Or.inl rfl))
      · exact Or.inr (Or.inr (Or.inr rfl))

/-- C8: `categorizeError` returns only `network`, `timeout`, `rate_limit`
or `unknown`; in particular it never returns `memory`, so the
memory-cleanup branch of `handleFailedRequestWithRecovery` (which fires
only when the classified category is `memory`) is unreachable for any
terminal error it classifies. -/
theorem categorizeError_never_memory (msg : String) (proxyEnabled : Bool) :
    (categorizeError msg = ErrorCategory.network ∨
     categorizeError msg = ErrorCategory.timeout ∨
     categorizeError msg = ErrorCategory.rate_limit ∨
     categorizeError msg = ErrorCategory.unknown) ∧
    categorizeError msg ≠ ErrorCategory.memory ∧
    (handleFailedRequestRecovery proxyEnabled msg).performsMemoryCleanup = false := by
  have h := categorizeError_cases msg
  refine ⟨h, ?_, ?_⟩
  · rcases h with h | h | h | h <;> simp [h]
  · rcases h with h | h | h | h <;> simp [handleFailedRequestRecovery, h]

/-- C2: `executeWithErrorHandling` never propagates a failure.  Whenever
the retry policy exhausts (its result is an error), the handler returns
the `{recovered: false, skipped: true, reason: error.message}` sentinel
(the return type itself has no error alternative), increments
`totalErrors`, and for a `CrawlerError` also increments the
`errorsByCategory` entry of its category. -/
theorem errorHandler_skip_sentinel_and_stats {α : Type} (cfg : RetryConfig)
    (st : ErrorStats) (op : Nat → Except JSError α) (opId : String) (m : AttemptsMap)
    (e : JSError) (h : (executeWithRetry cfg op opId m).result = .error e) :
    (executeWithErrorHandling cfg st op opId m).result = .sentinel false true e.message ∧
    (executeWithErrorHandling cfg st op opId m).stats.totalErrors = st.totalErrors + 1 ∧
    (∀ ce : CrawlerError, e = .crawler ce →
      (executeWithErrorHandling cfg st op opId m).stats.errorsByCategory ce.category =
        st.errorsByCategory ce.category + 1) := by
  refine ⟨?_, ?_, ?_⟩
  · simp [executeWithErrorHandling, h]
  · cases e <;> simp [executeWithErrorHandling, h, updateErrorStats]
  · rintro ce rfl
    simp [executeWithErrorHandling, h, updateErrorStats]

/-- Witness for C2: an operation that always fails with a plain
(non-`CrawlerError`) exception is converted to the skip sentinel and
counted in `totalErrors`. -/
theorem errorHandler_skip_sentinel_and_stats_witness :
    (executeWithErrorHandling ⟨3, 1000⟩ ErrorStats.init
        (fun _ => .error (.plain "boom") : Nat → Except JSError Unit)
        "op-1" AttemptsMap.empty).result = .sentinel false true "boom" ∧
    (executeWithErrorHandling ⟨3, 1000⟩ ErrorStats.init
        (fun _ => .error (.plain "boom") : Nat → Except JSError Unit)
        "op-1" AttemptsMap.empty).stats.totalErrors =
      ErrorStats.init.totalErrors + 1 :=
  have h := errorHandler_skip_sentinel_and_stats ⟨3, 1000⟩ ErrorStats.init
    (fun _ => .error (.plain "boom") : Nat → Except JSError Unit)
    "op-1" AttemptsMap.empty (.plain "boom")
    (by simp [executeWithRetry, executeWithRetryGo, RetryPolicy.shouldRetry,
      jsErrorIsRetryable])
  ⟨h.1, h.2.1⟩

/-- C7: the `retryable` field that the `CrawlerError` constructor stores is
`true` exactly when the category is `network`, `timeout` or `rate_limit`;
consequently an operation whose first attempt fails with a
`CrawlerError` of any other category is executed exactly once by
`executeWithRetry` — no retry, no delay — and its failure is converted
to a skip sentinel by the Error Handler. -/
theorem nonretryable_fails_fast :
    (∀ (msg : String) (cat : ErrorCategory) (sev : ErrorSeverity),
      (CrawlerError.make msg cat sev).retryable = true ↔
        (cat = ErrorCategory.network ∨ cat = ErrorCategory.timeout ∨
         cat = ErrorCategory.rate_limit)) ∧
    (∀ (cfg : RetryConfig) (st : ErrorStats) (msg : String) (cat : ErrorCategory)
        (sev : ErrorSeverity) (opId : String) (m : AttemptsMap)
        (op : Nat → Except JSError Unit),
      op 0 = .error (.crawler (CrawlerError.make msg cat sev)) →
      ¬(cat = ErrorCategory.network ∨ cat = ErrorCategory.timeout ∨
        cat = ErrorCategory.rate_limit) →
      (executeWithRetry cfg op opId m).attemptCount = 1 ∧
      (executeWithRetry cfg op opId m).delays = [] ∧
      (executeWithRetry cfg op opId m).result =
        .error (.crawler (CrawlerError.make msg cat sev)) ∧
      (executeWithErrorHandling cfg st op opId m).result = .sentinel false true msg) := by
  constructor
  · intro msg cat sev
    cases cat <;>
      simp [CrawlerError.make, CrawlerError.isRetryable, retryableCategories]
  · intro cfg st msg cat sev opId m op hop hcat
    have hret : jsErrorIsRetryable (.crawler (CrawlerError.make msg cat sev)) = false := by
      cases cat <;>
        simp_all [jsErrorIsRetryable, CrawlerError.make, CrawlerError.isRetryable,
          retryableCategories]
    have hrun : executeWithRetry cfg op opId m =
        ⟨.error (.crawler (CrawlerError.make msg cat sev)),
          m.set opId 1, 1, []⟩ := by
      rw [executeWithRetry, executeWithRetryGo, hop]
      simp [RetryPolicy.shouldRetry, hret]
    refine ⟨by simp [hrun], by simp [hrun], by simp [hrun], ?_⟩
    simp [executeWithErrorHandling, hrun, JSError.message, CrawlerError.make]

/-- Witness for C7: a `validation`-category failure is attempted once,
sleeps nowhere, and is skipped by the handler. -/
theorem nonretryable_fails_fast_witness :
    (executeWithRetry ⟨3, 1000⟩
        (fun _ => .error (.crawler
          (CrawlerError.make "invalid input" ErrorCategory.validation ErrorSeverity.medium))
          : Nat → Except JSError Unit)
        "op-1" AttemptsMap.empty).attemptCount = 1 ∧
    (executeWithRetry ⟨3, 1000⟩
        (fun _ => .error (.crawler
          (CrawlerError.make "invalid input" ErrorCategory.validation ErrorSeverity.medium))
          : Nat → Except JSError Unit)
        "op-1" AttemptsMap.empty).delays = [] ∧
    (executeWithErrorHandling ⟨3, 1000⟩ ErrorStats.init
        (fun _ => .error (.crawler
          (CrawlerError.make "invalid input" ErrorCategory.validation ErrorSeverity.medium))
          : Nat → Except JSError Unit)
        "op-1" AttemptsMap.empty).result = .sentinel false true "invalid input" :=
  have h := nonretryable_fails_fast.2 ⟨3, 1000⟩ ErrorStats.init "invalid input"
    ErrorCategory.validation ErrorSeverity.medium "op-1" AttemptsMap.empty
    (fun _ => .error (.crawler
      (CrawlerError.make "invalid input" ErrorCategory.validation ErrorSeverity.medium))
      : Nat → Except JSError Unit)
    rfl (by decide)
  ⟨h.1, h.2.1, h.2.2.2⟩

/-- C1 counterexample: with `baseDelay = 1000` and `maxRetries = 3`, an
operation that always fails with a retryable (`network`) `CrawlerError`
is attempted only 3 times in total, sleeping `1000` and `2000` ms — not
4 times with delays `1000, 2000, 3000` as the claim states (the loop
counts the initial attempt against `maxRetries`). -/
theorem retry_budget_counterexample :
    (executeWithRetry ⟨3, 1000⟩
        alwaysNetworkFail
        "page-1" AttemptsMap.empty).attemptCount = 3 ∧
    (executeWithRetry ⟨3, 1000⟩
        alwaysNetworkFail
        "page-1" AttemptsMap.empty).delays = [1000, 2000] ∧
    ¬((executeWithRetry ⟨3, 1000⟩
        alwaysNetworkFail
        "page-1" AttemptsMap.empty).attemptCount = 4 ∧
      (executeWithRetry ⟨3, 1000⟩
        alwaysNetworkFail
        "page-1" AttemptsMap.empty).delays = [1000, 2000, 3000]) := by
  refine ⟨?_, ?_, ?_⟩ <;>
    simp [alwaysNetworkFail, executeWithRetry, executeWithRetryGo, RetryPolicy.shouldRetry,
      AttemptsMap.set, AttemptsMap.empty, CrawlerError.make, CrawlerError.isRetryable,
      retryableCategories, jsErrorIsRetryable, RetryPolicy.calculateDelay]

/-- C1 (amended): with `baseDelay = 1000` and `maxRetries = 3`, an
always-failing retryable operation is attempted 3 times in total (1
initial + 2 retries); before retry number `k` it sleeps
`calculateDelay(k) = baseDelay × k`, i.e. `1000` then `2000` ms; the
exhausted error is then skipped (not raised) by the Error Handler. -/
theorem retry_linear_delays_then_skip :
    (executeWithRetry ⟨3, 1000⟩
        alwaysNetworkFail
        "page-1" AttemptsMap.empty).attemptCount = 3 ∧
    (executeWithRetry ⟨3, 1000⟩
        alwaysNetworkFail
        "page-1" AttemptsMap.empty).delays =
      [RetryPolicy.calculateDelay ⟨3, 1000⟩ 1, RetryPolicy.calculateDelay ⟨3, 1000⟩ 2] ∧
    (executeWithRetry ⟨3, 1000⟩
        alwaysNetworkFail
        "page-1" AttemptsMap.empty).delays = [1000, 2000] ∧
    (executeWithErrorHandling ⟨3, 1000⟩ ErrorStats.init
        alwaysNetworkFail
        "page-1" AttemptsMap.empty).result = .sentinel false true "net down" := by
  refine ⟨?_, ?_, ?_, ?_⟩ <;>
    simp [alwaysNetworkFail, executeWithRetry, executeWithRetryGo, executeWithErrorHandling,
      RetryPolicy.shouldRetry, AttemptsMap.set, AttemptsMap.empty, CrawlerError.make,
      CrawlerError.isRetryable, retryableCategories, jsErrorIsRetryable,
      RetryPolicy.calculateDelay, JSError.message]

/-- C5 counterexample: the string `not a url` fails to parse, passes
through `normalizeUrl` unchanged, and under the constructor's default
configuration (include `**` — match-all — and no excludes) `shouldCrawl`
at depth 0 ALLOWS it; it is not denied with `not_included` as the claim
states, because `shouldCrawl` performs no parse check of its own. -/
theorem malformed_url_allowed_counterexample :
    parseModel "not a url" = none ∧
    normalizeUrl "not a url" = "not a url" ∧
    0 < UrlFilterCfg.default.maxDepth ∧
    shouldCrawl minimatchModel UrlFilterCfg.default (normalizeUrl "not a url") 0 =
      ⟨true, "allowed"⟩ ∧
    shouldCrawl minimatchModel UrlFilterCfg.default (normalizeUrl "not a url") 0 ≠
      ⟨false, "not_included"⟩ :=
  ⟨by decide, by decide, by decide, by decide, by decide⟩

/-- C5 (amended): an input string that fails to parse is returned by
`normalizeUrl` unchanged and is then filtered by the pattern checks
exactly like any other string — below `maxDepth` and not matching an
exclude pattern, it is denied with `not_included` precisely when it
matches no include pattern (under the default match-all include pattern
it is therefore allowed, not denied).  Neither function throws: every
exception of the underlying parser and matcher is caught inside them,
as witnessed by their total return types. -/
theorem malformed_url_filter_behavior (mm : GlobMatcher) (cfg : UrlFilterCfg)
    (u : String) (depth : Nat) (hp : parseModel u = none)
    (hd : depth < cfg.maxDepth) :
    normalizeUrl u = u ∧
    (matchesExcludePatterns mm cfg u = false →
      (shouldCrawl mm cfg u depth = ⟨false, "not_included"⟩ ↔
        matchesIncludePatterns mm cfg u = false)) := by
  refine ⟨by simp [normalizeUrl, hp], ?_⟩
  intro hex
  cases hinc : matchesIncludePatterns mm cfg u <;>
    simp [shouldCrawl, hex, hinc, Nat.not_le.mpr hd]

/-- Witness for C5 (amended): a matcher that matches nothing makes the
unparseable string land in `not_included`. -/
theorem malformed_url_filter_behavior_witness :
    normalizeUrl "not a url" = "not a url" ∧
    (shouldCrawl (fun _ _ => .ok false) UrlFilterCfg.default "not a url" 0 =
        ⟨false, "not_included"⟩ ↔
      matchesIncludePatterns (fun _ _ => .ok false) UrlFilterCfg.default "not a url" =
        false) :=
  have h := malformed_url_filter_behavior (fun _ _ => .ok false) UrlFilterCfg.default
    "not a url" 0 (by decide) (by decide)
  ⟨h.1, h.2 (by decide)⟩

/-- C6 counterexample: `https://example.com` parses (with an empty path
and no fragment), so "u with only its fragment removed" is `u` itself;
but `normalizeUrl` returns `https://example.com/` — the serializer adds
a trailing slash, so the URL string is not preserved as-is. -/
theorem normalizeUrl_canonicalizes_counterexample :
    parseModel "https://example.com" =
      some ⟨"https", "example.com", "", none, none⟩ ∧
    normalizeUrl "https://example.com" = "https://example.com/" ∧
    normalizeUrl "https://example.com" ≠ "https://example.com" :=
  ⟨by decide, by decide, by decide⟩

/-- Inversion of the URL parser model: a successful parse only produces
components over the validated character sets. -/
theorem parseModel_inv {u : String} {p : URLParts} (hp : parseModel u = some p) :
    p.scheme.data.all isSchemeChar = true ∧
    p.host.data.all isHostChar = true ∧
    p.path.data.all isSafeChar = true ∧
    ((p.query.getD "").data.all isSafeChar = true) := by
  unfold parseModel at hp
  cases hsplit : splitURL u.data with
  | none => rw [hsplit] at hp; exact absurd hp (by simp)
  | some t =>
    obtain ⟨sch, host, path, q, f⟩ := t
    rw [hsplit] at hp
    dsimp only at hp
    by_cases hc : (decide (sch ≠ []) && sch.all isSchemeChar && decide (host ≠ []) &&
        host.all isHostChar && path.all isSafeChar && noDotSegments path &&
        (q.getD []).all isSafeChar) = true
    · rw [if_pos hc] at hp
      simp only [Bool.and_eq_true] at hc
      obtain ⟨⟨⟨⟨⟨⟨_, hsch⟩, _⟩, hhost⟩, hpath⟩, _⟩, hq⟩ := hc
      obtain rfl : (⟨String.mk sch, String.mk host, String.mk path,
          q.map String.mk, f.map String.mk⟩ : URLParts) = p := by
        exact Option.some.inj hp
      refine ⟨hsch, hhost, hpath, ?_⟩
      cases q with
      | none => simp
      | some l => simpa using hq
    · rw [if_neg hc] at hp
      exact absurd hp (by simp)

/-- A character failing a predicate satisfied by a whole list is not in
the list. -/
theorem not_mem_of_all {l : List Char} {pr : Char → Bool} {c : Char}
    (h : l.all pr = true) (hc : pr c = false) : c ∉ l := by
  intro hmem
  have h1 := List.all_eq_true.mp h _ hmem
  rw [hc] at h1
  exact Bool.noConfusion h1

/-- C6 (amended): for every URL in the parser model's domain,
`normalizeUrl` returns the canonical serialization of the URL with the
fragment cleared — scheme, host, path (an empty path rendered as `/`)
and query are reassembled in order and the fragment is omitted: no `#`
occurs in the output.  The output is the serializer's canonical form,
which need not be byte-identical to the input (see the counterexample:
a trailing slash is introduced for an empty path). -/
theorem normalizeUrl_strips_fragment (u : String) (p : URLParts)
    (hp : parseModel u = some p) :
    normalizeUrl u = serializeURL { p with fragment := none } ∧
    '#' ∉ (normalizeUrl u).data := by
  have heq : normalizeUrl u = serializeURL { p with fragment := none } := by
    simp [normalizeUrl, hp]
  refine ⟨heq, ?_⟩
  rw [heq]
  obtain ⟨hs, hh, hpa, hq⟩ := parseModel_inv hp
  simp only [serializeURL, String.data_append, List.mem_append, List.append_assoc]
  push_neg
  refine ⟨?_, ?_, ?_, ?_, ?_⟩
  · exact not_mem_of_all hs (by decide)
  · decide
  · exact not_mem_of_all hh (by decide)
  · by_cases hemp : p.path = ""
    · simp [hemp]
    · simp only [hemp, if_false]
      exact not_mem_of_all hpa (by decide)
  · cases hqv : p.query with
    | none => simp
    | some qs =>
      rw [hqv] at hq
      refine ⟨?_, by simp⟩
      intro hmem
      rcases List.mem_append.mp hmem with h1 | h1
      · exact absurd h1 (by decide)
      · exact absurd h1 (not_mem_of_all (by simpa using hq) (by decide))

/-- Witness for C6 (amended): a URL with query and fragment keeps its
query and loses its fragment. -/
theorem normalizeUrl_strips_fragment_witness :
    normalizeUrl "https://example.com/a?b=c#frag" =
      serializeURL ⟨"https", "example.com", "/a", some "b=c", none⟩ ∧
    '#' ∉ (normalizeUrl "https://example.com/a?b=c#frag").data :=
  have h := normalizeUrl_strips_fragment "https://example.com/a?b=c#frag"
    ⟨"https", "example.com", "/a", some "b=c", some "frag"⟩ (by decide)
  ⟨h.1, h.2⟩

/-- Iterating `rotateProxy` over a configured non-empty pool advances the
index modulo the pool size and never touches the configured pool. -/
theorem rotateProxy_index_iterate (urls : List String) (h0 : urls ≠ []) :
    ∀ (k : Nat) (s : CrawlerProxyState) (i : Nat), s.optionsProxyUrls = some urls →
      s.currentProxyIndex = some i → i < urls.length →
      (rotateProxy^[k] s).optionsProxyUrls = some urls ∧
      (rotateProxy^[k] s).currentProxyIndex = some ((i + k) % urls.length) := by
  intro k
  induction k with
  | zero =>
    intro s i h1 h2 h3
    simpa [h1, Nat.mod_eq_of_lt h3] using h2
  | succ k ih =>
    intro s i h1 h2 h3
    have hlen : urls.length ≠ 0 := by simpa [List.length_eq_zero] using h0
    have hrot1 : (rotateProxy s).optionsProxyUrls = some urls := by
      simp [rotateProxy, h1]
    have hrot2 : (rotateProxy s).currentProxyIndex = some ((i + 1) % urls.length) := by
      simp [rotateProxy, h1, h2, hlen]
    rw [Function.iterate_succ_apply]
    have hlt : (i + 1) % urls.length < urls.length :=
      Nat.mod_lt _ (Nat.pos_of_ne_zero hlen)
    obtain ⟨ha, hb⟩ := ih (rotateProxy s) ((i + 1) % urls.length) hrot1 hrot2 hlt
    refine ⟨ha, ?_⟩
    rw [hb, Nat.mod_add_mod]
    have harith : i + 1 + k = i + (k + 1) := by omega
    rw [harith]

/-- C9: with pool `["a","b","c"]` starting at index 0 and an active
browser-layer proxy configuration, three successive rotations install
`"b"`, `"c"`, `"a"` (indices 1, 2, 0); in general a rotation advances
the index to `(i+1) mod poolLength`, `poolLength` successive rotations
return the index to its starting value, and with no configured pool
`rotateProxy` changes nothing. -/
theorem rotateProxy_spec :
    (rotateProxy ⟨some ["a", "b", "c"], some 0, some [some "a"]⟩ =
        ⟨some ["a", "b", "c"], some 1, some [some "b"]⟩ ∧
      rotateProxy (rotateProxy ⟨some ["a", "b", "c"], some 0, some [some "a"]⟩) =
        ⟨some ["a", "b", "c"], some 2, some [some "c"]⟩ ∧
      rotateProxy (rotateProxy (rotateProxy
          ⟨some ["a", "b", "c"], some 0, some [some "a"]⟩)) =
        ⟨some ["a", "b", "c"], some 0, some [some "a"]⟩) ∧
    (∀ (s : CrawlerProxyState) (urls : List String) (i : Nat),
      s.optionsProxyUrls = some urls → s.currentProxyIndex = some i → urls ≠ [] →
      (rotateProxy s).currentProxyIndex = some ((i + 1) % urls.length)) ∧
    (∀ (s : CrawlerProxyState) (urls : List String) (i : Nat),
      s.optionsProxyUrls = some urls → s.currentProxyIndex = some i → urls ≠ [] →
      i < urls.length →
      (rotateProxy^[urls.length] s).currentProxyIndex = some i) ∧
    (∀ s : CrawlerProxyState, s.optionsProxyUrls = none → rotateProxy s = s) := by
  refine ⟨⟨by decide, by decide, by decide⟩, ?_, ?_, ?_⟩
  · intro s urls i h1 h2 h3
    have hlen : urls.length ≠ 0 := by simpa [List.length_eq_zero] using h3
    simp [rotateProxy, h1, h2, hlen]
  · intro s urls i h1 h2 h3 h4
    have h := (rotateProxy_index_iterate urls h3 urls.length s i h1 h2 h4).2
    rw [h, Nat.add_mod_right, Nat.mod_eq_of_lt h4]
  · intro s h
    cases s with
    | mk o c cr =>
      cases h
      rfl

/-- Witness for C9: one rotation from index 2 of a 3-pool wraps to 0,
three rotations return to 2, and a state without a pool is unchanged. -/
theorem rotateProxy_spec_witness :
    (rotateProxy ⟨some ["a", "b", "c"], some 2, none⟩).currentProxyIndex = some 0 ∧
    (rotateProxy^[3] ⟨some ["a", "b", "c"], some 2, none⟩).currentProxyIndex = some 2 ∧
    rotateProxy ⟨none, some 7, some [none]⟩ = ⟨none, some 7, some [none]⟩ :=
  ⟨rotateProxy_spec.2.1 _ ["a", "b", "c"] 2 rfl rfl (by decide),
    rotateProxy_spec.2.2.1 _ ["a", "b", "c"] 2 rfl rfl (by decide) (by decide),
    rotateProxy_spec.2.2.2 _ rfl⟩

/-- C10 counterexample: with 1 success out of 3 requests the method
returns the rounded percentage 33, not the exact value
`successfulRequests / totalRequests × 100 = 100/3` stated by the claim
(the source applies `Math.round`). -/
theorem successRate_formula_counterexample :
    ({ CrawlingStats.init with totalRequests := 3, successfulRequests := 1 } :
        CrawlingStats).getSuccessRate = 33 ∧
    ((33 : ℚ) ≠ (1 : ℚ) / 3 * 100) := by
  constructor
  · show (if (3 : Nat) = 0 then (0 : ℤ)
        else mathRound (((1 : Nat) : ℚ) / ((3 : Nat) : ℚ) * 100)) = 33
    rw [if_neg (by norm_num)]
    unfold mathRound
    rw [Int.floor_eq_iff]
    push_cast
    norm_num
  · norm_num

/-- C10 (amended): `getSuccessRate` is 0 when `totalRequests` is 0 (in
particular on a fresh `CrawlingStats`), and otherwise equals
`Math.round(successfulRequests / totalRequests × 100)`; whenever
successes do not exceed requests the result lies between 0 and 100 — a
well-defined integer, never `NaN` and never an error, because the
division is guarded by the zero test. -/
theorem getSuccessRate_guarded :
    (∀ st : CrawlingStats, st.totalRequests = 0 → st.getSuccessRate = 0) ∧
    CrawlingStats.init.getSuccessRate = 0 ∧
    (∀ st : CrawlingStats, st.totalRequests ≠ 0 →
      st.getSuccessRate =
        mathRound ((st.successfulRequests : ℚ) / (st.totalRequests : ℚ) * 100)) ∧
    (∀ st : CrawlingStats, st.successfulRequests ≤ st.totalRequests →
      0 ≤ st.getSuccessRate ∧ st.getSuccessRate ≤ 100) := by
  refine ⟨?_, ?_, ?_, ?_⟩
  · intro st h0
    simp [CrawlingStats.getSuccessRate, h0]
  · simp [CrawlingStats.getSuccessRate, CrawlingStats.init]
  · intro st h0
    simp [CrawlingStats.getSuccessRate, h0]
  · intro st hle
    by_cases h0 : st.totalRequests = 0
    · simp [CrawlingStats.getSuccessRate, h0]
    · have hpos : (0 : ℚ) < (st.totalRequests : ℚ) :=
        Nat.cast_pos.mpr (Nat.pos_of_ne_zero h0)
      have hq0 : (0 : ℚ) ≤ (st.successfulRequests : ℚ) / (st.totalRequests : ℚ) * 100 := by
        positivity
      have hdiv : (st.successfulRequests : ℚ) / (st.totalRequests : ℚ) ≤ 1 :=
        (div_le_one hpos).mpr (by exact_mod_cast hle)
      have hq1 : (st.successfulRequests : ℚ) / (st.totalRequests : ℚ) * 100 ≤ 100 := by
        nlinarith
      simp only [CrawlingStats.getSuccessRate, h0, if_false, mathRound]
      constructor
      · exact Int.le_floor.mpr (by push_cast; linarith)
      · have hlt : ⌊(st.successfulRequests : ℚ) / (st.totalRequests : ℚ) * 100 + 1 / 2⌋ <
            (101 : ℤ) :=
          Int.floor_lt.mpr (by push_cast; linarith)
        omega

/-- Witness for C10 (amended): 2 successes out of 4 requests give the
rounded percentage and lie within the bounds. -/
theorem getSuccessRate_guarded_witness :
    ({ CrawlingStats.init with totalRequests := 4, successfulRequests := 2 } :
        CrawlingStats).getSuccessRate =
      mathRound
        ((({ CrawlingStats.init with totalRequests := 4, successfulRequests := 2 } :
            CrawlingStats).successfulRequests : ℚ) /
          (({ CrawlingStats.init with totalRequests := 4, successfulRequests := 2 } :
            CrawlingStats).totalRequests : ℚ) * 100) ∧
    0 ≤ ({ CrawlingStats.init with totalRequests := 4, successfulRequests := 2 } :
        CrawlingStats).getSuccessRate ∧
    ({ CrawlingStats.init with totalRequests := 4, successfulRequests := 2 } :
        CrawlingStats).getSuccessRate ≤ 100 :=
  have h3 := getSuccessRate_guarded.2.2.1
    { CrawlingStats.init with totalRequests := 4, successfulRequests := 2 } (by decide)
  have h4 := getSuccessRate_guarded.2.2.2
    { CrawlingStats.init with totalRequests := 4, successfulRequests := 2 } (by decide)
  ⟨h3, h4.1, h4.2⟩

end RagSpider
